import Mathlib

/-!
Verification development for the SurveyAnalyzer statistical and
pattern-analysis engine.

The Python source is shallowly embedded: records are association lists from
column names to optional string values (`None`/missing key are identified, as
the loader normalises empty and `na`-like values to `None` and all records
share one column set), Python floats are modelled as exact rationals, and the
stable `list.sort` is modelled by stable insertion sort.  String primitives
(`strip`, `lower`, `title`, lexicographic comparison) are re-implemented
structurally over character lists so that all definitions evaluate by kernel
reduction; they model the ASCII behaviour of the Python originals.
-/

namespace SurveyAnalyzer

/-! ### Character and string primitives (ASCII models of Python built-ins) -/

/-- ASCII model of `str.lower` on one character. -/
def lowerChar (c : Char) : Char :=
  if 65 ≤ c.toNat ∧ c.toNat ≤ 90 then Char.ofNat (c.toNat + 32) else c

/-- ASCII model of `str.upper` on one character. -/
def upperChar (c : Char) : Char :=
  if 97 ≤ c.toNat ∧ c.toNat ≤ 122 then Char.ofNat (c.toNat - 32) else c

/-- Model of `str.lower`. -/
def lowerStr (s : String) : String := ⟨s.data.map lowerChar⟩

/-- The whitespace characters recognised by Python's `str.strip`/`str.split`
(space, tab, newline, carriage return, vertical tab, form feed). -/
def isWsChar (c : Char) : Bool :=
  c == ' ' || c == '\t' || c == '\n' || c == '\r' ||
    c == Char.ofNat 11 || c == Char.ofNat 12

/-- Model of `str.strip()` (no argument: strip surrounding whitespace). -/
def trimStr (s : String) : String :=
  ⟨((s.data.dropWhile isWsChar).reverse.dropWhile isWsChar).reverse⟩

/-- Lexicographic comparison of character lists by code point, the order
Python's `sorted` uses on strings. -/
def lexLe : List Char → List Char → Bool
  | [], _ => true
  | _ :: _, [] => false
  | a :: as, b :: bs =>
    if a.toNat < b.toNat then true
    else if b.toNat < a.toNat then false
    else lexLe as bs

/-- Boolean lexicographic string comparison. -/
def strLeB (a b : String) : Bool := lexLe a.data b.data

/-- The string order as a decidable relation, for sorting. -/
def strRel (a b : String) : Prop := strLeB a b = true

instance : DecidableRel strRel := fun a b => decEq (strLeB a b) true

/-- Model of Python's `sorted` on a list of strings (stable; here sorting with
a total preorder, so the result is the unique sorted permutation). -/
def sortStrings (l : List String) : List String := List.insertionSort strRel l

/-- `str.title`, ASCII model: the first letter of every alphabetic run is
uppercased, the rest lowercased; non-letters end a run. -/
def titleGo (prevAlpha : Bool) : List Char → List Char
  | [] => []
  | c :: cs =>
    if c.isAlpha then
      (if prevAlpha then lowerChar c else upperChar c) :: titleGo true cs
    else c :: titleGo false cs

/-- Model of `str.title()`. -/
def pyTitle (s : String) : String := ⟨titleGo false s.data⟩

/-- `leadsWith needle l` is true when `needle` is an initial segment of `l`. -/
def leadsWith : List Char → List Char → Bool
  | [], _ => true
  | _ :: _, [] => false
  | a :: as, b :: bs => a == b && leadsWith as bs

/-- `containsRun needle hay`: does `needle` occur contiguously in `hay`?
Model of Python's `needle in hay` on strings. -/
def containsRun (needle : List Char) : List Char → Bool
  | [] => needle.isEmpty
  | c :: t => leadsWith needle (c :: t) || containsRun needle t

/-- Model of Python's substring test `needle in hay`. -/
def pyContains (hay needle : String) : Bool := containsRun needle.data hay.data

/-- First-occurrence deduplication worker: drop elements already in `seen`. -/
def fdGo [DecidableEq α] (seen : List α) : List α → List α
  | [] => []
  | x :: xs => if x ∈ seen then fdGo seen xs else x :: fdGo (x :: seen) xs

/-- Keep the first occurrence of every element, in encounter order: the
iteration order of a Python `set`/`Counter` built from the list. -/
def firstDedup [DecidableEq α] (l : List α) : List α := fdGo [] l

/-- The items of `collections.Counter(l)` in insertion order. -/
def countOcc [DecidableEq α] (l : List α) : List (α × ℕ) :=
  (firstDedup l).map (fun v => (v, l.count v))

/-- Descending-by-count order on counter items. -/
def countGe (a b : α × ℕ) : Prop := b.2 ≤ a.2

instance : DecidableRel (@countGe α) := fun a b => Nat.decLe b.2 a.2

/-- `Counter.most_common()` (full list): counter items sorted by count
descending, ties kept in insertion order (a stable sort, as in CPython). -/
def mostCommonAll [DecidableEq α] (l : List α) : List (α × ℕ) :=
  List.insertionSort countGe (countOcc l)

/-- Value of a digit string, e.g. for `int` applied after `str.isdigit`. -/
def digitsVal (cs : List Char) : ℕ :=
  cs.foldl (fun acc c => acc * 10 + (c.toNat - 48)) 0

/-- Unsigned decimal parser: digits with at most one dot, at least one digit. -/
def parseUnsigned (cs : List Char) : Option ℚ :=
  let intPart := cs.takeWhile (fun c => c != '.')
  match cs.dropWhile (fun c => c != '.') with
  | [] =>
    if intPart ≠ [] ∧ intPart.all Char.isDigit then some (digitsVal intPart)
    else none
  | _ :: frac =>
    if (intPart ≠ [] ∨ frac ≠ []) ∧ intPart.all Char.isDigit ∧ frac.all Char.isDigit then
      some ((digitsVal intPart : ℚ) + (digitsVal frac : ℚ) / (10 ^ frac.length))
    else none

/-- Model of Python's builtin `float()` on plain decimal literals: surrounding
whitespace, an optional sign, digits with at most one dot.  Exponents,
`inf`/`nan` and underscores are outside the model; the analyzers only meet
survey values. -/
def pyFloat? (s : String) : Option ℚ :=
  match (trimStr s).data with
  | '-' :: rest => (parseUnsigned rest).map (fun q => -q)
  | '+' :: rest => parseUnsigned rest
  | cs => parseUnsigned cs

/-! ### The tabular dataset (§3 of the spec) -/

/-- One survey record: an association list from column name to optional
value.  A `none` value models both a missing key and Python `None` (the
loader stores `None` for all normalised-absent values and keeps one shared
key set). -/
abbrev Record := List (String × Option String)

/-- `row.get(col)`, with missing key and `None` value both giving `none`. -/
def getVal (r : Record) (c : String) : Option String :=
  match r.find? (fun p => p.1 == c) with
  | some p => p.2
  | none => none

/-- The key list of a record (`list(row.keys())`; Python dict keys are
unique). -/
def keys (r : Record) : List String := r.map (fun p => p.1)

/-- `self.columns = list(survey_data[0].keys()) if survey_data else []`. -/
def columnsOf (data : List Record) : List String :=
  match data with
  | [] => []
  | r :: _ => keys r

/-- `str(row.get(col, '')).strip()` for loader-normalised data.  (For an
absent value Python would stringify `None` to `"None"`; the loader normalises
every value whose strip lowercases to `none` away, so over its datasets the
two readings agree and we use the empty string.) -/
def cellVal (r : Record) (c : String) : String := trimStr ((getVal r c).getD "")

/-- The truthy value of `row.get(col)`: `None` and `''` are falsy. -/
def truthyVal (r : Record) (c : String) : Option String :=
  match getVal r c with
  | some s => if s == "" then none else some s
  | none => none

/-! ### StatsAnalyzer: cross-tabulation (stats_analyzer.py 29-79) -/

/-- The stripped non-empty values of a column, in dataset order
(stats_analyzer.py 44-54). -/
def trimmedValues (data : List Record) (c : String) : List String :=
  (data.map (fun r => cellVal r c)).filter (fun s => s != "")

/-- The distinct stripped non-empty values (the Python `set`). -/
def distinctVals (data : List Record) (c : String) : List String :=
  firstDedup (trimmedValues data c)

/-- `sorted(set(...))`: the distinct values in lexicographic order
(stats_analyzer.py 57-58). -/
def sortedVals (data : List Record) (c : String) : List String :=
  sortStrings (distinctVals data c)

/-- A cell of the cross-tabulation matrix: Python mixes label strings and
integer counts in one list. -/
inductive Cell where
  | label (v : String)
  | num (n : ℕ)

/-- The count of one interior cell (stats_analyzer.py 70-76). -/
def cellCount (data : List Record) (c1 c2 a b : String) : ℕ :=
  data.countP (fun r => cellVal r c1 == a && cellVal r c2 == b)

/-- `cross_tabulate` (stats_analyzer.py 29-79): raises `ValueError` on a
column that is absent from the first record's key set; otherwise the header
row `[''] + sorted values of col2` followed by one row per sorted value of
col1. -/
def cross_tabulate (data : List Record) (c1 c2 : String) :
    Except String (List (List Cell)) :=
  if c1 ∉ columnsOf data ∨ c2 ∉ columnsOf data then
    Except.error (s!"Column not found: {c1} or {c2}")
  else
    let v1 := sortedVals data c1
    let v2 := sortedVals data c2
    Except.ok ((Cell.label "" :: v2.map Cell.label) ::
      v1.map (fun a =>
        Cell.label a :: v2.map (fun b => Cell.num (cellCount data c1 c2 a b))))

/-! ### StatsAnalyzer: chi-square test (stats_analyzer.py 81-192) -/

structure ChiSquareResult where
  chi_square : ℚ
  p_value : ℚ
  df : ℕ
  significant : Bool
  error : Option String
  observed : Option (List (List ℕ))
  expected : Option (List (List ℚ))

/-- The fixed "Insufficient data" result (stats_analyzer.py 96-102, 115-121).
The Python dict carries no `observed`/`expected` keys in this case. -/
def insufficientResult : ChiSquareResult :=
  ⟨0, 1, 0, false, some "Insufficient data for chi-square test", none, none⟩

/-- `int(cell)` over the interior region, where every cell is a count. -/
def cellNum : Cell → ℕ
  | Cell.num n => n
  | Cell.label _ => 0

/-- `_calculate_expected_frequencies` (stats_analyzer.py 151-176), with exact
rational division in place of float division. -/
def expectedFreq (observed : List (List ℕ)) : List (List ℚ) :=
  if observed.isEmpty || (observed.headD []).isEmpty then []
  else
    let cols := (observed.headD []).length
    let colTotals := (List.range cols).map
      (fun j => (observed.map (fun row => row.getD j 0)).sum)
    let total := (observed.map (fun row => row.sum)).sum
    observed.map (fun row =>
      (List.range cols).map (fun j =>
        if total > 0 then ((row.sum * colTotals.getD j 0 : ℕ) : ℚ) / (total : ℚ)
        else 0))

/-- The chi-square statistic `Σ (observed−expected)²/expected` over cells with
positive expected frequency (stats_analyzer.py 127-131). -/
def chiStat (observed : List (List ℕ)) (expected : List (List ℚ)) : ℚ :=
  ((List.range observed.length).map (fun i =>
    ((List.range ((observed.getD i []).length)).map (fun j =>
      let e := (expected.getD i []).getD j 0
      let o := (((observed.getD i []).getD j 0 : ℕ) : ℚ)
      if e > 0 then (o - e) ^ 2 / e else 0)).sum)).sum

/-- `_chi_square_p_value` (stats_analyzer.py 178-192): the deliberately
simplified piecewise-linear approximation. -/
def chiSquarePValue (chi : ℚ) (df : ℤ) : ℚ :=
  if df ≤ 0 then 1
  else if chi < (df : ℚ) then 1 - chi / ((df : ℚ) * 2)
  else max 0 (1 - chi / ((df : ℚ) * 10))

/-- `chi_square_test` (stats_analyzer.py 81-149).  `0.05` is modelled by the
exact rational `1/20`. -/
def chi_square_test (data : List Record) (c1 c2 : String) :
    Except String ChiSquareResult :=
  match cross_tabulate data c1 c2 with
  | Except.error e => Except.error e
  | Except.ok crosstab =>
    if crosstab.length < 2 ∨ (crosstab.headD []).length < 2 then
      Except.ok insufficientResult
    else
      let observed := crosstab.tail.map (fun row => row.tail.map cellNum)
      let total := (observed.map (fun row => row.sum)).sum
      if total < 5 then Except.ok insufficientResult
      else
        let expected := expectedFreq observed
        let chi := chiStat observed expected
        let df := (observed.length - 1) * ((observed.headD []).length - 1)
        let p := chiSquarePValue chi (df : ℤ)
        Except.ok ⟨chi, p, df, decide (p < 1 / 20), none, some observed, some expected⟩

/-! ### StatsAnalyzer: correlation (stats_analyzer.py 194-275) -/

structure CorrelationResult where
  correlation : ℝ
  sample_size : ℕ
  strength : Option String
  error : Option String

/-- The paired numeric observations (stats_analyzer.py 206-222): a record
contributes exactly when both values are non-empty and both parse as floats;
a parse failure of either value skips the record. -/
def correlationPairs (data : List Record) (c1 c2 : String) : List (ℚ × ℚ) :=
  data.filterMap (fun r =>
    match getVal r c1 with
    | none => none
    | some v1 =>
      if trimStr v1 == "" then none
      else
        match pyFloat? v1 with
        | none => none
        | some n1 =>
          match getVal r c2 with
          | none => none
          | some v2 =>
            if trimStr v2 == "" then none
            else (pyFloat? v2).map (fun n2 => (n1, n2)))

/-- Arithmetic mean, `sum(x) / n`. -/
def meanQ (l : List ℚ) : ℚ := l.sum / (l.length : ℚ)

/-- Sum of squared deviations from the mean. -/
def devSum (l : List ℚ) : ℚ := (l.map (fun v => (v - meanQ l) ^ 2)).sum

/-- `_calculate_correlation` (stats_analyzer.py 240-260): Pearson coefficient
with a zero-variance guard.  `math.sqrt` forces the result into ℝ. -/
noncomputable def _calculate_correlation (x y : List ℚ) : ℝ :=
  if x.length ≠ y.length ∨ x.length < 2 then 0
  else
    let num := ((x.zip y).map (fun p => (p.1 - meanQ x) * (p.2 - meanQ y))).sum
    let dx := devSum x
    let dy := devSum y
    if dx = 0 ∨ dy = 0 then 0
    else (num : ℝ) / Real.sqrt ((dx : ℝ) * (dy : ℝ))

/-- `_interpret_correlation` (stats_analyzer.py 262-275). -/
noncomputable def _interpret_correlation (c : ℝ) : String :=
  if |c| ≥ 0.8 then "Very Strong"
  else if |c| ≥ 0.6 then "Strong"
  else if |c| ≥ 0.4 then "Moderate"
  else if |c| ≥ 0.2 then "Weak"
  else "Very Weak"

/-- `correlation_analysis` (stats_analyzer.py 194-238). -/
noncomputable def correlation_analysis (data : List Record) (c1 c2 : String) :
    CorrelationResult :=
  let ps := correlationPairs data c1 c2
  if ps.length < 2 then
    ⟨0, 0, none, some "Insufficient numeric data for correlation analysis"⟩
  else
    let r := _calculate_correlation (ps.map Prod.fst) (ps.map Prod.snd)
    ⟨r, ps.length, some (_interpret_correlation r), none⟩

/-- The population-form Pearson coefficient as the spec words it
(§4.2: covariance over the product of population standard deviations),
for comparison with `_calculate_correlation`. -/
noncomputable def pearsonPopulationSpec (x y : List ℚ) : ℝ :=
  let n : ℚ := (x.length : ℚ)
  let cov : ℚ := (((x.zip y).map (fun p => (p.1 - meanQ x) * (p.2 - meanQ y))).sum) / n
  (cov : ℝ) /
    (Real.sqrt (((devSum x / n : ℚ) : ℝ)) * Real.sqrt (((devSum y / n : ℚ) : ℝ)))

/-! ### SentimentAnalyzer: vocabularies (sentiment_analyzer.py 16-66) -/

/-- Positive keywords and weights (sentiment_analyzer.py 19-27; the duplicated
dict key `outstanding` collapses to a single entry). -/
def positive_keywords : List (String × ℚ) :=
  [("excellent", 3), ("amazing", 3), ("great", 2), ("good", 2), ("wonderful", 3),
   ("fantastic", 3), ("outstanding", 3), ("perfect", 3), ("love", 2), ("like", 1),
   ("enjoy", 2), ("happy", 2), ("satisfied", 2), ("pleased", 2), ("impressed", 2),
   ("recommend", 2), ("helpful", 2), ("useful", 1), ("effective", 2), ("quality", 1),
   ("best", 2), ("awesome", 3), ("brilliant", 3), ("superb", 3), ("terrific", 3),
   ("delighted", 3), ("thrilled", 3), ("excited", 2), ("positive", 1), ("successful", 2),
   ("improved", 1), ("better", 1), ("exceeded", 2), ("surpassed", 2)]

/-- Negative keywords and weights (sentiment_analyzer.py 30-39). -/
def negative_keywords : List (String × ℚ) :=
  [("terrible", 3), ("awful", 3), ("horrible", 3), ("bad", 2), ("poor", 2),
   ("disappointing", 2), ("frustrated", 2), ("angry", 2), ("upset", 2), ("annoyed", 2),
   ("hate", 3), ("dislike", 2), ("worst", 3), ("useless", 2), ("waste", 2),
   ("problem", 1), ("issue", 1), ("difficult", 1), ("confusing", 1), ("complicated", 1),
   ("broken", 2), ("failed", 2), ("error", 1), ("bug", 1), ("crash", 2),
   ("slow", 1), ("expensive", 1), ("overpriced", 2), ("cheap", 1), ("low quality", 2),
   ("unreliable", 2), ("unstable", 2), ("inconsistent", 1), ("disorganized", 1),
   ("messy", 1), ("chaotic", 2), ("stressful", 2), ("overwhelming", 2)]

/-- Neutral keywords (sentiment_analyzer.py 42-47); documented but never read
by the scoring walk. -/
def neutral_keywords : List (String × ℚ) :=
  [("okay", 0), ("fine", 0), ("average", 0), ("normal", 0), ("standard", 0),
   ("usual", 0), ("typical", 0), ("regular", 0), ("common", 0), ("basic", 0),
   ("simple", 0), ("straightforward", 0), ("clear", 0), ("understandable", 0),
   ("adequate", 0), ("sufficient", 0), ("acceptable", 0), ("reasonable", 0)]

/-- Negation vocabulary (sentiment_analyzer.py 50-58), contraction variants
with and without apostrophes included. -/
def negation_words : List String :=
  ["not", "no", "never", "none", "neither", "nor", "nobody", "nothing",
   "nowhere", "hardly", "barely", "scarcely", "doesn\x27t", "don\x27t",
   "didn\x27t", "won\x27t", "can\x27t", "couldn\x27t", "wouldn\x27t", "shouldn\x27t",
   "isn\x27t", "aren\x27t", "wasn\x27t", "weren\x27t", "hasn\x27t", "haven\x27t",
   "hadn\x27t", "doesnt", "dont", "didnt", "wont", "cant", "couldnt",
   "wouldnt", "shouldnt", "isnt", "arent", "wasnt", "werent", "hasnt",
   "havent", "hadnt"]

/-- Intensifier vocabulary (sentiment_analyzer.py 61-66); only membership is
used by the walk, the weights are never read. -/
def intensifier_words : List (String × ℚ) :=
  [("very", 3/2), ("really", 3/2), ("extremely", 2), ("absolutely", 2),
   ("completely", 2), ("totally", 2), ("entirely", 2), ("thoroughly", 3/2),
   ("highly", 3/2), ("incredibly", 2), ("amazingly", 2), ("exceptionally", 2),
   ("particularly", 6/5), ("especially", 6/5), ("notably", 6/5), ("remarkably", 3/2)]

/-- Dictionary lookup `tbl[w]` / `w in tbl`. -/
def weightOf (tbl : List (String × ℚ)) (w : String) : Option ℚ :=
  (tbl.find? (fun p => p.1 == w)).map (fun p => p.2)

def isIntensifier (w : String) : Bool := (weightOf intensifier_words w).isSome

def isNegationWord (w : String) : Bool := negation_words.contains w

/-! ### SentimentAnalyzer: text analysis (sentiment_analyzer.py 68-150, 258-293) -/

/-- `re.sub(r'\s+', ' ', text)`: collapse whitespace runs to one space. -/
def collapseGo (prevWs : Bool) : List Char → List Char
  | [] => []
  | c :: cs =>
    if isWsChar c then
      if prevWs then collapseGo true cs else ' ' :: collapseGo true cs
    else c :: collapseGo false cs

/-- A `\w` word character, ASCII model: alphanumeric or underscore. -/
def isWordChar (c : Char) : Bool := c.isAlphanum || c == '_'

/-- `_clean_text` (sentiment_analyzer.py 258-269): lowercase, collapse
whitespace, replace everything but word characters, whitespace and
apostrophes by a space, strip. -/
def _clean_text (text : String) : String :=
  let lowered := text.data.map lowerChar
  let collapsed := collapseGo false lowered
  let depunct := collapsed.map
    (fun c => if isWordChar c || isWsChar c || c == Char.ofNat 39 then c else ' ')
  trimStr ⟨depunct⟩

/-- `str.split()` with no argument: split on whitespace runs, dropping empty
pieces. -/
def splitWsGo (cur : List Char) : List Char → List String
  | [] => if cur.isEmpty then [] else [⟨cur.reverse⟩]
  | c :: cs =>
    if isWsChar c then
      if cur.isEmpty then splitWsGo [] cs else String.mk cur.reverse :: splitWsGo [] cs
    else splitWsGo (c :: cur) cs

/-- `_extract_words` (sentiment_analyzer.py 271-273). -/
def _extract_words (text : String) : List String := splitWsGo [] text.data

/-- `_is_negated` (sentiment_analyzer.py 275-284): some token among the up to
three immediately preceding ones is a negation word. -/
def _is_negated (words : List String) (current : ℕ) : Bool :=
  (List.range current).any (fun j =>
    decide (current - 3 ≤ j) &&
      (match words[j]? with
       | some w => isNegationWord (lowerStr w)
       | none => false))

/-- The mutable state of the token walk in `analyze_text`. -/
structure ScanState where
  score : ℚ
  positive_words : List String
  negative_words : List String
  intensifiers : ℕ

/-- One iteration of the walk (sentiment_analyzer.py 99-128). -/
def scanStep (words : List String) (st : ScanState) (i : ℕ) : ScanState :=
  match words[i]? with
  | none => st
  | some word =>
    let wl := lowerStr word
    if isIntensifier wl then { st with intensifiers := st.intensifiers + 1 }
    else
      let neg := _is_negated words i
      match weightOf positive_keywords wl with
      | some w =>
        if neg then
          { st with score := st.score - w, negative_words := st.negative_words ++ [word] }
        else
          { st with score := st.score + w, positive_words := st.positive_words ++ [word] }
      | none =>
        match weightOf negative_keywords wl with
        | some w =>
          if neg then
            { st with score := st.score + w, positive_words := st.positive_words ++ [word] }
          else
            { st with score := st.score - w, negative_words := st.negative_words ++ [word] }
        | none => st

/-- The full walk over `enumerate(words)`. -/
def scanWords (words : List String) : ScanState :=
  (List.range words.length).foldl (scanStep words) ⟨0, [], [], 0⟩

/-- `_categorize_sentiment` (sentiment_analyzer.py 286-293). -/
def _categorize_sentiment (score : ℚ) : String :=
  if score > 1 then "positive"
  else if score < -1 then "negative"
  else "neutral"

structure SentimentResult where
  sentiment : String
  score : ℚ
  positive_words : List String
  negative_words : List String
  confidence : ℚ
  total_words : ℕ
  sentiment_words : ℕ

/-- `analyze_text` (sentiment_analyzer.py 68-150).  The float `0.2` is
modelled by the exact `1/5`; the early return for empty input carries
`total_words = sentiment_words = 0` where the Python dict simply omits the
keys. -/
def analyze_text (text : String) : SentimentResult :=
  if text == "" then ⟨"neutral", 0, [], [], 0, 0, 0⟩
  else
    let words := _extract_words (_clean_text text)
    let st := scanWords words
    let score :=
      if st.intensifiers > 0 then st.score * (1 + (st.intensifiers : ℚ) * (1 / 5))
      else st.score
    let sentiment_words := st.positive_words.length + st.negative_words.length
    ⟨_categorize_sentiment score, score, st.positive_words, st.negative_words,
      min 1 ((sentiment_words : ℚ) / (max words.length 1 : ℚ)),
      words.length, sentiment_words⟩

/-! ### SentimentAnalyzer: per-column aggregation (sentiment_analyzer.py 152-221) -/

structure ColumnSummary where
  positive : ℕ
  negative : ℕ
  neutral : ℕ
  positive_pct : ℚ
  negative_pct : ℚ
  neutral_pct : ℚ
  avg_score : ℚ
  total_responses : ℕ
  detailed_results : Option (List SentimentResult)

/-- The all-zero summary returned on both early exits
(sentiment_analyzer.py 163-173 and 185-195); neither Python dict carries a
`detailed_results` key. -/
def zeroSummary : ColumnSummary := ⟨0, 0, 0, 0, 0, 0, 0, 0, none⟩

/-- `analyze_column` (sentiment_analyzer.py 152-221). -/
def analyze_column (data : List Record) (column : String) : ColumnSummary :=
  if data.isEmpty || !((keys (data.headD [])).contains column) then zeroSummary
  else
    let results := (data.filterMap (fun r =>
      match getVal r column with
      | some t => if trimStr t == "" then none else some t
      | none => none)).map analyze_text
    if results.isEmpty then zeroSummary
    else
      let total : ℚ := (results.length : ℚ)
      let pos := results.countP (fun r => r.sentiment == "positive")
      let neg := results.countP (fun r => r.sentiment == "negative")
      let neu := results.countP (fun r => r.sentiment == "neutral")
      ⟨pos, neg, neu,
        (pos : ℚ) / total * 100, (neg : ℚ) / total * 100, (neu : ℚ) / total * 100,
        (results.map (fun r => r.score)).sum / total,
        results.length, some results⟩

/-! ### PatternDetector: data model (pattern_detector.py) -/

/-- The per-group `{response, count, percentage}` summary dicts. -/
structure GroupStat where
  response : String
  count : ℕ
  percentage : ℚ

/-- One `{value, count, percentage}` outlier entry. -/
structure OutlierInfo where
  value : String
  count : ℕ
  percentage : ℚ

/-- The type-specific extra fields of each pattern dict. -/
inductive PatternPayload where
  | age (response : String) (affected_groups : List String)
  | gender (details : List (String × GroupStat))
  | regional (response : String) (affected_regions : List String)
  | education (response : String) (affected_levels : List String)
  | correlation (strength : ℚ) (columns : List String)
  | combination (percentage : ℚ) (combo : List String)
  | outlier (outliers : List OutlierInfo)

/-- A detected pattern (common fields of every pattern dict). -/
structure Pattern where
  type : String
  description : String
  confidence : ℚ
  sample_size : ℕ
  payload : PatternPayload

/-- The hardcoded demographic field set, repeated across the detectors. -/
def demographicFields : List String := ["age", "gender", "region", "education"]

/-! ### PatternDetector: grouping helpers -/

/-- `defaultdict(list)` insertion: append to an existing key's list or add the
key at the end (Python dicts preserve insertion order). -/
def upsertAppend [DecidableEq κ] : List (κ × List v) → κ → v → List (κ × List v)
  | [], k, x => [(k, [x])]
  | (k', xs) :: rest, k, x =>
    if k' = k then (k', xs ++ [x]) :: rest else (k', xs) :: upsertAppend rest k x

/-- Group rows by a demographic field: rows with a truthy, non-blank value are
bucketed under the stripped title-cased value, in first-encounter key order
(pattern_detector.py 169-173, 222-226, 280-284). -/
def groupRowsBy (data : List Record) (field : String) : List (String × List Record) :=
  data.foldl (fun acc r =>
    match getVal r field with
    | some s =>
      if s != "" && trimStr s != "" then upsertAppend acc (pyTitle (trimStr s)) r
      else acc
    | none => acc) []

/-- The six fixed age bucket names, in dict insertion order
(pattern_detector.py 88-95). -/
def ageGroupNames : List String := ["18-25", "26-35", "36-45", "46-55", "56-65", "65+"]

/-- The bucket of one integer age; ages below 18 fall in no bucket. -/
def ageBucket (n : ℕ) : Option String :=
  if 18 ≤ n ∧ n ≤ 25 then some "18-25"
  else if 26 ≤ n ∧ n ≤ 35 then some "26-35"
  else if 36 ≤ n ∧ n ≤ 45 then some "36-45"
  else if 46 ≤ n ∧ n ≤ 55 then some "46-55"
  else if 56 ≤ n ∧ n ≤ 65 then some "56-65"
  else if n > 65 then some "65+"
  else none

/-- `int(row['age'])` guarded by truthiness and `str.isdigit`
(pattern_detector.py 98-101). -/
def ageOf (r : Record) : Option ℕ :=
  match getVal r "age" with
  | some s => if s != "" && s.data.all Char.isDigit then some (digitsVal s.data) else none
  | none => none

/-- The age-group partition (pattern_detector.py 88-115): all six buckets are
present, each holding its rows in dataset order. -/
def ageGroupsOf (data : List Record) : List (String × List Record) :=
  ageGroupNames.map (fun g =>
    (g, data.filter (fun r => (ageOf r).bind ageBucket == some g)))

/-- The truthy values of a column over a row set
(`[r.get(column) for r in responses if r.get(column)]`; values are taken raw,
not stripped). -/
def columnValues (responses : List Record) (column : String) : List String :=
  responses.filterMap (fun r => truthyVal r column)

/-- Per-group most-common-response summaries (the `*_responses` dicts built at
pattern_detector.py 130-141, 188-199, 241-252, 299-310): skip empty groups and
groups with no truthy value; `most_common(1)[0]` is the head of the stable
descending sort. -/
def groupSummaries (column : String) (groups : List (String × List Record)) :
    List (String × GroupStat) :=
  groups.filterMap (fun g =>
    if g.2.isEmpty then none
    else
      let values := columnValues g.2 column
      if values.isEmpty then none
      else (mostCommonAll values).head?.map (fun mc =>
        (g.1, ⟨mc.1, mc.2, (mc.2 : ℚ) / (values.length : ℚ) * 100⟩)))

/-- Invert the summaries into `response → groups with that most-common
response` (`defaultdict(list)` at pattern_detector.py 146-148 etc.). -/
def invertResponses (entries : List (String × GroupStat)) : List (String × List String) :=
  entries.foldl (fun acc e => upsertAppend acc e.2.response e.1) []

/-- `len(groups[g])` for the sample-size sums. -/
def lookupGroupSize (groups : List (String × List Record)) (g : String) : ℕ :=
  ((groups.find? (fun p => p.1 == g)).map (fun p => p.2.length)).getD 0

/-! ### PatternDetector: demographic passes (pattern_detector.py 57-331) -/

/-- `_analyze_column_by_age_groups` (pattern_detector.py 125-162). -/
def _analyze_column_by_age_groups (column : String)
    (age_groups : List (String × List Record)) : List Pattern :=
  let resp := groupSummaries column age_groups
  if resp.length > 1 then
    (invertResponses resp).filterMap (fun p =>
      if p.2.length > 1 then
        let response := p.1
        let joined := String.intercalate ", " p.2
        some ⟨"age_pattern",
          s!"Age groups {joined} most commonly responded \x27{response}\x27 to {column}",
          min 90 ((p.2.length : ℚ) * 20),
          (p.2.map (lookupGroupSize age_groups)).sum,
          PatternPayload.age p.1 p.2⟩
      else none)
  else []

/-- `_analyze_age_patterns` (pattern_detector.py 83-123). -/
def _analyze_age_patterns (data : List Record) : List Pattern :=
  let age_groups := ageGroupsOf data
  (((columnsOf data).filter (fun c => !(demographicFields.contains c))).map
    (fun column => _analyze_column_by_age_groups column age_groups)).flatten

/-- `_analyze_column_by_gender` (pattern_detector.py 183-215): one pattern
when at least two genders disagree on their most common response. -/
def _analyze_column_by_gender (column : String)
    (gender_groups : List (String × List Record)) : List Pattern :=
  let resp := groupSummaries column gender_groups
  if resp.length > 1 then
    if (firstDedup (resp.map (fun e => e.2.response))).length > 1 then
      [⟨"gender_pattern", s!"Gender differences detected in {column} responses", 75,
        (resp.map (fun e => lookupGroupSize gender_groups e.1)).sum,
        PatternPayload.gender resp⟩]
    else []
  else []

/-- `_analyze_gender_patterns` (pattern_detector.py 164-181). -/
def _analyze_gender_patterns (data : List Record) : List Pattern :=
  let gender_groups := groupRowsBy data "gender"
  (((columnsOf data).filter (fun c => !(demographicFields.contains c))).map
    (fun column => _analyze_column_by_gender column gender_groups)).flatten

/-- `_analyze_column_by_region` (pattern_detector.py 236-273). -/
def _analyze_column_by_region (column : String)
    (regional_groups : List (String × List Record)) : List Pattern :=
  let resp := groupSummaries column regional_groups
  if resp.length > 1 then
    (invertResponses resp).filterMap (fun p =>
      if p.2.length > 1 then
        let response := p.1
        let joined := String.intercalate ", " p.2
        some ⟨"regional_pattern",
          s!"Regions {joined} most commonly responded \x27{response}\x27 to {column}",
          min 85 ((p.2.length : ℚ) * 25),
          (p.2.map (lookupGroupSize regional_groups)).sum,
          PatternPayload.regional p.1 p.2⟩
      else none)
  else []

/-- `_analyze_regional_patterns` (pattern_detector.py 217-234). -/
def _analyze_regional_patterns (data : List Record) : List Pattern :=
  let regional_groups := groupRowsBy data "region"
  (((columnsOf data).filter (fun c => !(demographicFields.contains c))).map
    (fun column => _analyze_column_by_region column regional_groups)).flatten

/-- `_analyze_column_by_education` (pattern_detector.py 294-331). -/
def _analyze_column_by_education (column : String)
    (education_groups : List (String × List Record)) : List Pattern :=
  let resp := groupSummaries column education_groups
  if resp.length > 1 then
    (invertResponses resp).filterMap (fun p =>
      if p.2.length > 1 then
        let response := p.1
        let joined := String.intercalate ", " p.2
        some ⟨"education_pattern",
          s!"Education levels {joined} most commonly responded \x27{response}\x27 to {column}",
          min 80 ((p.2.length : ℚ) * 20),
          (p.2.map (lookupGroupSize education_groups)).sum,
          PatternPayload.education p.1 p.2⟩
      else none)
  else []

/-- `_analyze_education_patterns` (pattern_detector.py 275-292). -/
def _analyze_education_patterns (data : List Record) : List Pattern :=
  let education_groups := groupRowsBy data "education"
  (((columnsOf data).filter (fun c => !(demographicFields.contains c))).map
    (fun column => _analyze_column_by_education column education_groups)).flatten

/-- `_find_demographic_patterns` (pattern_detector.py 57-81). -/
def _find_demographic_patterns (data : List Record) : List Pattern :=
  (if "age" ∈ columnsOf data then _analyze_age_patterns data else []) ++
  (if "gender" ∈ columnsOf data then _analyze_gender_patterns data else []) ++
  (if "region" ∈ columnsOf data then _analyze_regional_patterns data else []) ++
  (if "education" ∈ columnsOf data then _analyze_education_patterns data else [])

/-! ### PatternDetector: correlation pass (pattern_detector.py 333-424) -/

/-- `_are_responses_related` (pattern_detector.py 397-424): shared
positive-list word (substring test), shared negative-list word, or exact
lowercase equality. -/
def _are_responses_related (r1 r2 : String) : Bool :=
  let posW := ["good", "great", "excellent", "satisfied", "happy", "like", "love"]
  let negW := ["bad", "poor", "terrible", "dissatisfied", "unhappy", "dislike", "hate"]
  let l1 := lowerStr r1
  let l2 := lowerStr r2
  (posW.any (fun w => pyContains l1 w) && posW.any (fun w => pyContains l2 w)) ||
  (negW.any (fun w => pyContains l1 w) && negW.any (fun w => pyContains l2 w)) ||
  (l1 == l2)

/-- The rows where both columns have a stripped non-empty value
(pattern_detector.py 370-374). -/
def bothPresentRows (data : List Record) (c1 c2 : String) : List Record :=
  data.filter (fun r => cellVal r c1 != "" && cellVal r c2 != "")

/-- How many of those rows have related responses (pattern_detector.py 376-378). -/
def relatedRows (data : List Record) (c1 c2 : String) : ℕ :=
  (bothPresentRows data c1 c2).countP
    (fun r => _are_responses_related (cellVal r c1) (cellVal r c2))

/-- `_analyze_correlation` (pattern_detector.py 348-395).  The float literal
`0.6` is modelled by `3/5` (for integer-ratio inputs the comparisons agree). -/
def _analyze_correlation (data : List Record) (c1 c2 : String) : Option Pattern :=
  if (distinctVals data c1).length < 2 ∨ (distinctVals data c2).length < 2 then none
  else
    let total := (bothPresentRows data c1 c2).length
    if total = 0 then none
    else
      let strength : ℚ := (relatedRows data c1 c2 : ℚ) / (total : ℚ)
      if strength > 3 / 5 then
        some ⟨"correlation_pattern",
          s!"Strong correlation detected between {c1} and {c2}",
          min 90 (strength * 100), total,
          PatternPayload.correlation strength [c1, c2]⟩
      else none

/-- The `(i, j), i < j` column pairs of the nested loop
(pattern_detector.py 340-344). -/
def orderedPairs : List α → List (α × α)
  | [] => []
  | x :: xs => xs.map (fun y => (x, y)) ++ orderedPairs xs

/-- `_find_correlation_patterns` (pattern_detector.py 333-346). -/
def _find_correlation_patterns (data : List Record) : List Pattern :=
  let cats := (columnsOf data).filter (fun c => !(demographicFields.contains c))
  (orderedPairs cats).filterMap (fun p => _analyze_correlation data p.1 p.2)

/-! ### PatternDetector: combination pass (pattern_detector.py 426-458) -/

/-- The sorted `column:value` token list of one record over the dataset's
column set (pattern_detector.py 433-437). -/
def responseCombination (cols : List String) (r : Record) : List String :=
  sortStrings (cols.filterMap (fun c =>
    match getVal r c with
    | some s => if trimStr s == "" then none else some (c ++ ":" ++ trimStr s)
    | none => none))

/-- The non-empty combinations across the dataset (pattern_detector.py 431-439). -/
def responseCombinations (data : List Record) : List (List String) :=
  data.filterMap (fun r =>
    let combo := responseCombination (columnsOf data) r
    if combo.isEmpty then none else some combo)

/-- `_find_combination_patterns` (pattern_detector.py 426-458): among the top
3 most frequent combinations, report those with count > 1 and a share above
10% of the combination list. -/
def _find_combination_patterns (data : List Record) : List Pattern :=
  let combos := responseCombinations data
  ((mostCommonAll combos).take 3).filterMap (fun p =>
    if p.2 > 1 then
      let percentage : ℚ := (p.2 : ℚ) / (combos.length : ℚ) * 100
      if percentage > 10 then
        let joined := String.intercalate ", " p.1
        some ⟨"combination_pattern", s!"Common response combination: {joined}",
          min 85 (percentage * 2), p.2, PatternPayload.combination percentage p.1⟩
      else none
    else none)

/-! ### PatternDetector: outlier pass (pattern_detector.py 460-505) -/

/-- `_analyze_outliers` (pattern_detector.py 473-505).  The float `0.05` is
modelled by the exact `1/20`. -/
def _analyze_outliers (data : List Record) (column : String) : Option Pattern :=
  let values := columnValues data column
  if values.isEmpty then none
  else
    let total := values.length
    let outliers := (countOcc values).filterMap (fun p =>
      if (p.2 : ℚ) ≤ (total : ℚ) * (1 / 20) ∧ p.2 > 0 then
        some (⟨p.1, p.2, (p.2 : ℚ) / (total : ℚ) * 100⟩ : OutlierInfo)
      else none)
    if outliers.isEmpty then none
    else
      some ⟨"outlier_pattern", s!"Outlier responses detected in {column}", 70, total,
        PatternPayload.outlier outliers⟩

/-- `_find_outlier_patterns` (pattern_detector.py 460-471). -/
def _find_outlier_patterns (data : List Record) : List Pattern :=
  ((columnsOf data).filter (fun c => !(demographicFields.contains c))).filterMap
    (_analyze_outliers data)

/-! ### PatternDetector: `find_patterns` (pattern_detector.py 28-55) -/

/-- The concatenation of the four detection passes, in source order. -/
def allPasses (data : List Record) : List Pattern :=
  _find_demographic_patterns data ++ _find_correlation_patterns data ++
    _find_combination_patterns data ++ _find_outlier_patterns data

/-- Descending order on confidence, the key of
`patterns.sort(key=lambda x: x['confidence'], reverse=True)`. -/
def confGe (a b : Pattern) : Prop := b.confidence ≤ a.confidence

instance : DecidableRel confGe :=
  fun a b => inferInstanceAs (Decidable (b.confidence ≤ a.confidence))

instance : IsTotal Pattern confGe := ⟨fun a b => le_total b.confidence a.confidence⟩

instance : IsTrans Pattern confGe := ⟨fun _ _ _ h1 h2 => le_trans h2 h1⟩

/-- `find_patterns` (pattern_detector.py 28-55): run the four passes and
stable-sort by confidence descending (Python's `list.sort` is stable;
insertion sort models it). -/
def find_patterns (data : List Record) : List Pattern :=
  if data.isEmpty then [] else List.insertionSort confGe (allPasses data)

/-! ### Order properties of the lexicographic string comparison -/

theorem lexLe_total : ∀ as bs : List Char, lexLe as bs = true ∨ lexLe bs as = true := by
  intro as
  induction as with
  | nil => intro bs; left; rfl
  | cons a as ih =>
    intro bs
    cases bs with
    | nil => right; rfl
    | cons b bs =>
      simp only [lexLe]
      rcases Nat.lt_trichotomy a.toNat b.toNat with h | h | h
      · left; simp [h]
      · have hba : ¬b.toNat < a.toNat := by omega
        have hab : ¬a.toNat < b.toNat := by omega
        rcases ih bs with h' | h' <;> simp [hab, hba, h']
      · right; simp [h]

theorem lexLe_trans : ∀ as bs cs : List Char,
    lexLe as bs = true → lexLe bs cs = true → lexLe as cs = true := by
  intro as
  induction as with
  | nil => intro bs cs _ _; rfl
  | cons a as ih =>
    intro bs cs h1 h2
    cases bs with
    | nil => simp [lexLe] at h1
    | cons b bs =>
      cases cs with
      | nil => simp [lexLe] at h2
      | cons c cs =>
        simp only [lexLe] at h1 h2 ⊢
        rcases Nat.lt_trichotomy a.toNat b.toNat with hab | hab | hab
        · rcases Nat.lt_trichotomy b.toNat c.toNat with hbc | hbc | hbc
          · simp [show a.toNat < c.toNat from lt_trans hab hbc]
          · simp [show a.toNat < c.toNat from hbc ▸ hab]
          · rw [if_neg (by omega), if_pos (by omega)] at h2
            exact (Bool.false_ne_true h2).elim
        · rw [if_neg (by omega), if_neg (by omega)] at h1
          rcases Nat.lt_trichotomy b.toNat c.toNat with hbc | hbc | hbc
          · simp [show a.toNat < c.toNat by omega]
          · rw [if_neg (by omega), if_neg (by omega)] at h2
            rw [if_neg (by omega), if_neg (by omega)]
            exact ih bs cs h1 h2
          · rw [if_neg (by omega), if_pos (by omega)] at h2
            exact (Bool.false_ne_true h2).elim
        · rw [if_neg (by omega), if_pos (by omega)] at h1
          exact (Bool.false_ne_true h1).elim

instance : IsTotal String strRel :=
  ⟨fun a b => lexLe_total a.data b.data⟩

instance : IsTrans String strRel :=
  ⟨fun a b c h1 h2 => lexLe_trans a.data b.data c.data h1 h2⟩

/-! ### Properties of first-occurrence deduplication -/

theorem mem_fdGo [DecidableEq α] (a : α) :
    ∀ (l seen : List α), a ∈ fdGo seen l ↔ a ∈ l ∧ a ∉ seen := by
  intro l
  induction l with
  | nil => intro seen; simp [fdGo]
  | cons x xs ih =>
    intro seen
    simp only [fdGo]
    split_ifs with hx
    · rw [ih seen]
      constructor
      · rintro ⟨h1, h2⟩; exact ⟨List.mem_cons_of_mem x h1, h2⟩
      · rintro ⟨h1, h2⟩
        rcases List.mem_cons.mp h1 with h1 | h1
        · subst h1; exact absurd hx h2
        · exact ⟨h1, h2⟩
    · rw [List.mem_cons, ih (x :: seen)]
      constructor
      · rintro (h | ⟨h1, h2⟩)
        · subst h; exact ⟨List.mem_cons_self a xs, hx⟩
        · exact ⟨List.mem_cons_of_mem x h1, fun hs => h2 (List.mem_cons_of_mem x hs)⟩
      · rintro ⟨h1, h2⟩
        by_cases hax : a = x
        · exact Or.inl hax
        · rcases List.mem_cons.mp h1 with h | h
          · exact absurd h hax
          · refine Or.inr ⟨h, fun hs => ?_⟩
            rcases List.mem_cons.mp hs with h' | h'
            · exact hax h'
            · exact h2 h'

theorem nodup_fdGo [DecidableEq α] :
    ∀ (l seen : List α), (fdGo seen l).Nodup := by
  intro l
  induction l with
  | nil => intro seen; simp [fdGo]
  | cons x xs ih =>
    intro seen
    simp only [fdGo]
    split_ifs with hx
    · exact ih seen
    · refine List.nodup_cons.mpr ⟨fun hmem => ?_, ih (x :: seen)⟩
      exact ((mem_fdGo x xs (x :: seen)).mp hmem).2 (List.mem_cons_self x seen)

theorem mem_firstDedup [DecidableEq α] (a : α) (l : List α) :
    a ∈ firstDedup l ↔ a ∈ l := by
  simp [firstDedup, mem_fdGo]

theorem nodup_firstDedup [DecidableEq α] (l : List α) : (firstDedup l).Nodup :=
  nodup_fdGo l []

/-! ### Counting helpers -/

theorem countP_or_disjoint (l : List α) (p q : α → Bool)
    (h : ∀ x ∈ l, ¬(p x = true ∧ q x = true)) :
    l.countP (fun x => p x || q x) = l.countP p + l.countP q := by
  induction l with
  | nil => simp
  | cons a t ih =>
    have ha := h a (List.mem_cons_self a t)
    have ht : ∀ x ∈ t, ¬(p x = true ∧ q x = true) :=
      fun x hx => h x (List.mem_cons_of_mem a hx)
    simp only [List.countP_cons]
    rw [ih ht]
    cases hp : p a <;> cases hq : q a <;> simp [hp, hq] at ha ⊢ <;> omega

theorem sum_countP_contains (data : List α) (f : α → String) (p : α → Bool) :
    ∀ V : List String, V.Nodup →
      (V.map (fun v => data.countP (fun r => p r && (f r == v)))).sum =
        data.countP (fun r => p r && V.contains (f r)) := by
  intro V
  induction V with
  | nil =>
    intro _
    simp only [List.map_nil, List.sum_nil, List.contains_nil, Bool.and_false]
    simp
  | cons v vs ih =>
    intro hnd
    obtain ⟨hv, hnd'⟩ := List.nodup_cons.mp hnd
    have hdisj : ∀ x ∈ data,
        ¬((p x && (f x == v)) = true ∧ (p x && vs.contains (f x)) = true) := by
      rintro x _ ⟨h1, h2⟩
      have hfv : f x = v := eq_of_beq (Bool.and_elim_right h1)
      have hfm : f x ∈ vs := List.elem_iff.mp (Bool.and_elim_right h2)
      exact hv (hfv ▸ hfm)
    simp only [List.map_cons, List.sum_cons]
    rw [ih hnd', ← countP_or_disjoint data _ _ hdisj]
    refine List.countP_congr (fun x _ => ?_)
    simp only [List.contains_cons, Bool.and_or_distrib_left]

/-! ### The interior-cell sum of the cross-tabulation -/

theorem nodup_sortedVals (data : List Record) (c : String) :
    (sortedVals data c).Nodup :=
  ((List.perm_insertionSort strRel (distinctVals data c)).nodup_iff).mpr
    (nodup_firstDedup _)

theorem contains_sortedVals (data : List Record) (c : String) (r : Record)
    (hr : r ∈ data) :
    (sortedVals data c).contains (cellVal r c) = (cellVal r c != "") := by
  cases hb : (cellVal r c != "") with
  | true =>
    have hmem : cellVal r c ∈ sortedVals data c := by
      have h1 : cellVal r c ∈ data.map (fun x => cellVal x c) :=
        List.mem_map_of_mem (fun x => cellVal x c) hr
      have h2 : cellVal r c ∈ trimmedValues data c :=
        List.mem_filter.mpr ⟨h1, hb⟩
      have h3 : cellVal r c ∈ distinctVals data c :=
        (mem_firstDedup _ _).mpr h2
      exact (List.mem_insertionSort strRel).mpr h3
    exact List.elem_iff.mpr hmem
  | false =>
    rw [Bool.eq_false_iff]
    intro hcon
    have hmem : cellVal r c ∈ sortedVals data c := List.elem_iff.mp hcon
    have h2 : cellVal r c ∈ trimmedValues data c :=
      (mem_firstDedup _ _).mp ((List.mem_insertionSort strRel).mp hmem)
    have := List.of_mem_filter h2
    rw [hb] at this
    exact Bool.false_ne_true this

theorem interiorSum_eq (data : List Record) (c1 c2 : String) :
    ((sortedVals data c1).map (fun a =>
        ((sortedVals data c2).map (fun b => cellCount data c1 c2 a b)).sum)).sum =
      data.countP (fun r => cellVal r c1 != "" && cellVal r c2 != "") := by
  have h2 : ∀ a : String,
      ((sortedVals data c2).map (fun b => cellCount data c1 c2 a b)).sum =
        data.countP (fun r =>
          (cellVal r c1 == a) && (sortedVals data c2).contains (cellVal r c2)) :=
    fun a => sum_countP_contains data (fun r => cellVal r c2)
      (fun r => cellVal r c1 == a) (sortedVals data c2) (nodup_sortedVals data c2)
  have h3 : ∀ a : String,
      data.countP (fun r =>
          (cellVal r c1 == a) && (sortedVals data c2).contains (cellVal r c2)) =
        data.countP (fun r =>
          ((sortedVals data c2).contains (cellVal r c2)) && (cellVal r c1 == a)) :=
    fun a => List.countP_congr (fun r _ => by rw [Bool.and_comm])
  simp only [cellCount] at h2 ⊢
  simp only [h2, h3]
  rw [sum_countP_contains data (fun r => cellVal r c1)
    (fun r => (sortedVals data c2).contains (cellVal r c2)) (sortedVals data c1)
    (nodup_sortedVals data c1)]
  refine List.countP_congr (fun r hr => ?_)
  rw [contains_sortedVals data c1 r hr, contains_sortedVals data c2 r hr,
    Bool.and_comm]

/-! ### Stability of the stable sort under confidence-preserving filters -/

theorem filter_insertionSort_of_rel (r : α → α → Prop) [DecidableRel r]
    (p : α → Bool) (l : List α) (hp : ∀ a b, p a = true → p b = true → r a b) :
    (List.insertionSort r l).filter p = l.filter p := by
  have hpl : (l.filter p).Pairwise r :=
    List.pairwise_of_forall_mem_list
      (fun a ha b hb => hp a b (List.of_mem_filter ha) (List.of_mem_filter hb))
  have hsub : List.Sublist ((l.filter p).filter p)
      ((List.insertionSort r l).filter p) :=
    (List.sublist_insertionSort hpl (List.filter_sublist l)).filter p
  rw [List.filter_filter] at hsub
  have hsub' : List.Sublist (l.filter p) ((List.insertionSort r l).filter p) := by
    refine (List.filter_congr (fun a _ => ?_) : l.filter _ = l.filter p) ▸ hsub
    cases p a <;> simp
  have hlen : (l.filter p).length = ((List.insertionSort r l).filter p).length :=
    (((List.perm_insertionSort r l).filter p).length_eq).symm
  exact (hsub'.eq_of_length hlen).symm

/-! ### Claim C4: the piecewise p-value approximation -/

/-- C4: for every chi-square statistic value and degrees-of-freedom value, the
approximate p-value equals 1.0 when df ≤ 0; equals 1.0 − statistic/(df×2) when
df > 0 and statistic < df; and equals max(0, 1.0 − statistic/(df×10))
otherwise. -/
theorem chiSquarePValue_spec :
    (∀ (chi : ℚ) (df : ℤ), df ≤ 0 → chiSquarePValue chi df = 1) ∧
    (∀ (chi : ℚ) (df : ℤ), 0 < df → chi < (df : ℚ) →
      chiSquarePValue chi df = 1 - chi / ((df : ℚ) * 2)) ∧
    (∀ (chi : ℚ) (df : ℤ), 0 < df → (df : ℚ) ≤ chi →
      chiSquarePValue chi df = max 0 (1 - chi / ((df : ℚ) * 10))) := by
  refine ⟨fun chi df h => ?_, fun chi df h1 h2 => ?_, fun chi df h1 h2 => ?_⟩
  · rw [chiSquarePValue, if_pos h]
  · rw [chiSquarePValue, if_neg (by omega), if_pos h2]
  · rw [chiSquarePValue, if_neg (by omega), if_neg (not_lt.mpr h2)]

/-- Witness for C4 at concrete inputs in each of the three regimes. -/
theorem chiSquarePValue_spec_witness :
    chiSquarePValue 5 0 = 1 ∧
    chiSquarePValue 1 2 = 1 - 1 / (((2 : ℤ) : ℚ) * 2) ∧
    chiSquarePValue 30 2 = max 0 (1 - 30 / (((2 : ℤ) : ℚ) * 10)) :=
  ⟨chiSquarePValue_spec.1 5 0 (by norm_num),
   chiSquarePValue_spec.2.1 1 2 (by norm_num) (by norm_num),
   chiSquarePValue_spec.2.2 30 2 (by norm_num) (by norm_num)⟩

/-! ### Claim C6: classification thresholds -/

/-- C6: scores above 1.0 are positive, scores below −1.0 are negative, and
everything in between — the closed interval [−1, 1], including exactly ±1 —
is neutral. -/
theorem categorize_sentiment_spec :
    (∀ s : ℚ, 1 < s → _categorize_sentiment s = "positive") ∧
    (∀ s : ℚ, s < -1 → _categorize_sentiment s = "negative") ∧
    (∀ s : ℚ, -1 ≤ s → s ≤ 1 → _categorize_sentiment s = "neutral") := by
  refine ⟨fun s h => ?_, fun s h => ?_, fun s h1 h2 => ?_⟩
  · rw [_categorize_sentiment, if_pos h]
  · rw [_categorize_sentiment, if_neg (by linarith), if_pos h]
  · rw [_categorize_sentiment, if_neg (by linarith), if_neg (by linarith)]

/-- Witness for C6, including the boundary scores 1 and −1. -/
theorem categorize_sentiment_spec_witness :
    _categorize_sentiment 2 = "positive" ∧ _categorize_sentiment (-2) = "negative" ∧
    _categorize_sentiment 1 = "neutral" ∧ _categorize_sentiment (-1) = "neutral" :=
  ⟨categorize_sentiment_spec.1 2 (by norm_num),
   categorize_sentiment_spec.2.1 (-2) (by norm_num),
   categorize_sentiment_spec.2.2 1 (by norm_num) (by norm_num),
   categorize_sentiment_spec.2.2 (-1) (by norm_num) (by norm_num)⟩

/-! ### Claim C9: the correlation pass needs two distinct values per column -/

/-- C9: the correlation-pattern pass emits nothing when either column has
fewer than 2 distinct non-empty values, whatever the relatedness of the
present pairs would be. -/
theorem analyze_correlation_two_distinct_guard (data : List Record) (c1 c2 : String)
    (h : (distinctVals data c1).length < 2 ∨ (distinctVals data c2).length < 2) :
    _analyze_correlation data c1 c2 = none := by
  rw [_analyze_correlation, if_pos h]

/-- Example dataset for C9: only one distinct value in `q1`, yet every present
pair is related (shared word "good"), so the would-be ratio is 1 > 0.6. -/
def exCorrGuardData : List Record :=
  [[("q1", some "good"), ("q2", some "good service")],
   [("q1", some "good"), ("q2", some "good stuff")]]

/-- Witness for C9: on `exCorrGuardData` no pattern is emitted although the
relatedness ratio of the present pairs exceeds 0.6. -/
theorem analyze_correlation_two_distinct_guard_witness :
    _analyze_correlation exCorrGuardData "q1" "q2" = none ∧
    (relatedRows exCorrGuardData "q1" "q2" : ℚ) /
      ((bothPresentRows exCorrGuardData "q1" "q2").length : ℚ) > 3 / 5 := by
  constructor
  · exact analyze_correlation_two_distinct_guard exCorrGuardData "q1" "q2"
      (Or.inl (by decide))
  · have h1 : relatedRows exCorrGuardData "q1" "q2" = 2 := rfl
    have h2 : (bothPresentRows exCorrGuardData "q1" "q2").length = 2 := rfl
    rw [h1, h2]
    norm_num

/-! ### Claim C10: absent column yields the all-zero summary, not a failure -/

/-- C10: on an empty dataset or a column absent from the first record's key
set, `analyze_column` returns the all-zero summary; `cross_tabulate`, by
contrast, fails with a ColumnNotFound error on an absent column. -/
theorem analyze_column_missing_spec :
    (∀ (data : List Record) (column : String),
        data = [] ∨ column ∉ keys (data.headD []) →
        analyze_column data column = zeroSummary) ∧
    (∀ (data : List Record) (c1 c2 : String),
        c1 ∉ columnsOf data ∨ c2 ∉ columnsOf data →
        cross_tabulate data c1 c2 = Except.error s!"Column not found: {c1} or {c2}") := by
  constructor
  · rintro data column h
    rw [analyze_column, if_pos ?_]
    rcases h with h | h
    · subst h; rfl
    · have hc : (keys (data.headD [])).contains column = false := by
        rw [← Bool.not_eq_true]
        intro hcon
        exact h (List.elem_iff.mp hcon)
      rw [hc]
      simp
  · rintro data c1 c2 h
    rw [cross_tabulate, if_pos h]

/-- Witness for C10 at a concrete one-record dataset and absent column. -/
theorem analyze_column_missing_spec_witness :
    analyze_column [[("x", some "1")]] "zzz" = zeroSummary ∧
    cross_tabulate [[("x", some "1")]] "zzz" "x" =
      Except.error "Column not found: zzz or x" := by
  constructor
  · exact analyze_column_missing_spec.1 [[("x", some "1")]] "zzz" (Or.inr (by decide))
  · exact (analyze_column_missing_spec.2 [[("x", some "1")]] "zzz" "x"
      (Or.inl (by decide))).trans (by rfl)

/-! ### Claim C8: `find_patterns` is sorted by confidence, stably -/

/-- C8: the output of `find_patterns` is non-increasing in confidence, and
patterns of equal confidence keep their original detection order: filtering
the output at any confidence value gives exactly the same list as filtering
the concatenation of the four detection passes. -/
theorem find_patterns_sorted_and_stable (data : List Record) :
    (find_patterns data).Pairwise (fun a b => b.confidence ≤ a.confidence) ∧
    ∀ c : ℚ, (find_patterns data).filter (fun p => p.confidence == c) =
      (allPasses data).filter (fun p => p.confidence == c) := by
  constructor
  · rw [find_patterns]
    split_ifs with h
    · exact List.Pairwise.nil
    · exact List.sorted_insertionSort confGe (allPasses data)
  · intro c
    rw [find_patterns]
    split_ifs with h
    · rw [List.isEmpty_iff.mp h]
      rfl
    · refine filter_insertionSort_of_rel confGe _ (allPasses data)
        (fun a b ha hb => ?_)
      have ha' : a.confidence = c := eq_of_beq ha
      have hb' : b.confidence = c := eq_of_beq hb
      show b.confidence ≤ a.confidence
      rw [ha', hb']

/-! ### Claim C5: negation handling in the scoring walk -/

/-- C5: a token is negated exactly when one of the up-to-3 immediately
preceding tokens is a negation word; a negated positive-vocabulary token
subtracts its weight and is recorded under negative matches; a negated
negative-vocabulary token adds its weight and is recorded under positive
matches; and `analyze_text "not good"` is not classified positive. -/
theorem analyze_text_negation_spec :
    (∀ (words : List String) (i : ℕ),
        _is_negated words i = true ↔
          ∃ j, i - 3 ≤ j ∧ j < i ∧
            ∃ w, words[j]? = some w ∧ isNegationWord (lowerStr w) = true) ∧
    (∀ (words : List String) (i : ℕ) (st : ScanState) (w : String) (k : ℚ),
        words[i]? = some w →
        isIntensifier (lowerStr w) = false →
        weightOf positive_keywords (lowerStr w) = some k →
        _is_negated words i = true →
        scanStep words st i = { st with score := st.score - k,
                                        negative_words := st.negative_words ++ [w] }) ∧
    (∀ (words : List String) (i : ℕ) (st : ScanState) (w : String) (k : ℚ),
        words[i]? = some w →
        isIntensifier (lowerStr w) = false →
        weightOf positive_keywords (lowerStr w) = none →
        weightOf negative_keywords (lowerStr w) = some k →
        _is_negated words i = true →
        scanStep words st i = { st with score := st.score + k,
                                        positive_words := st.positive_words ++ [w] }) ∧
    (analyze_text "not good").sentiment ≠ "positive" := by
  refine ⟨fun words i => ?_, fun words i st w k hw hint hpos hneg => ?_,
    fun words i st w k hw hint hpos hnegw hneg => ?_, ?_⟩
  · rw [_is_negated, List.any_eq_true]
    constructor
    · rintro ⟨j, hj, hcond⟩
      rw [Bool.and_eq_true, decide_eq_true_eq] at hcond
      obtain ⟨hle, hmatch⟩ := hcond
      cases hw : words[j]? with
      | none => rw [hw] at hmatch; exact absurd hmatch (by simp)
      | some w =>
        rw [hw] at hmatch
        exact ⟨j, hle, List.mem_range.mp hj, w, hw, hmatch⟩
    · rintro ⟨j, hle, hlt, w, hw, hnegw⟩
      refine ⟨j, List.mem_range.mpr hlt, ?_⟩
      rw [Bool.and_eq_true, decide_eq_true_eq]
      exact ⟨hle, by rw [hw]; exact hnegw⟩
  · simp [scanStep, hw, hint, hpos, hneg]
  · simp [scanStep, hw, hint, hpos, hnegw, hneg]
  · have h1 : (analyze_text "not good").sentiment =
        _categorize_sentiment ((0 : ℚ) - 2) := rfl
    have h2 : _categorize_sentiment ((0 : ℚ) - 2) = "negative" := by
      rw [_categorize_sentiment, if_neg (by norm_num), if_pos (by norm_num)]
    rw [h1, h2]
    decide

/-- Witness for C5: the step on the negated positive token "good" of
"not good". -/
theorem analyze_text_negation_spec_witness :
    scanStep ["not", "good"] ⟨0, [], [], 0⟩ 1 =
      { score := (0 : ℚ) - 2, positive_words := [],
        negative_words := ([] : List String) ++ ["good"], intensifiers := 0 } :=
  analyze_text_negation_spec.2.1 ["not", "good"] 1 ⟨0, [], [], 0⟩ "good" 2
    rfl rfl rfl rfl

/-! ### Claim C3: cross-tabulation invariants -/

/-- C3: for columns present in the first record's key set, the matrix has the
header `[''] ++ sorted distinct non-empty values of col2`, every data row has
`1 + |distinct values of col2|` cells and begins with a value of col1, the row
labels are in lexicographic order, and the interior cells sum to the number of
records with both columns non-empty. -/
theorem cross_tabulate_invariants (data : List Record) (c1 c2 : String)
    (h1 : c1 ∈ columnsOf data) (h2 : c2 ∈ columnsOf data) :
    ∃ m, cross_tabulate data c1 c2 = Except.ok m ∧
      m.headD [] = Cell.label "" :: (sortedVals data c2).map Cell.label ∧
      (sortedVals data c2).Pairwise (fun a b => strLeB a b = true) ∧
      (∀ row ∈ m.tail, row.length = 1 + (sortedVals data c2).length) ∧
      m.tail.map (fun row => row.headD (Cell.label "")) =
        (sortedVals data c1).map Cell.label ∧
      (sortedVals data c1).Pairwise (fun a b => strLeB a b = true) ∧
      (m.tail.map (fun row => (row.tail.map cellNum).sum)).sum =
        data.countP (fun r => cellVal r c1 != "" && cellVal r c2 != "") := by
  have hcols : ¬(c1 ∉ columnsOf data ∨ c2 ∉ columnsOf data) := by
    push_neg
    exact ⟨h1, h2⟩
  refine ⟨(Cell.label "" :: (sortedVals data c2).map Cell.label) ::
      (sortedVals data c1).map (fun a => Cell.label a :: (sortedVals data c2).map
        (fun b => Cell.num (cellCount data c1 c2 a b))),
    by rw [cross_tabulate, if_neg hcols], rfl,
    List.sorted_insertionSort strRel _, ?_, ?_, ?_, ?_⟩
  · intro row hrow
    rw [List.tail_cons] at hrow
    obtain ⟨a, _, rfl⟩ := List.mem_map.mp hrow
    simp [Nat.add_comm]
  · rw [List.tail_cons, List.map_map]
    rfl
  · exact List.sorted_insertionSort strRel _
  · rw [List.tail_cons, List.map_map]
    refine Eq.trans (congrArg List.sum (List.map_congr_left (fun a _ => ?_)))
      (interiorSum_eq data c1 c2)
    show ((Cell.label a :: (sortedVals data c2).map
        (fun b => Cell.num (cellCount data c1 c2 a b))).tail.map cellNum).sum = _
    rw [List.tail_cons, List.map_map]
    rfl

/-- Example three-record dataset for the C3 witness. -/
def exCrossData : List Record :=
  [[("g", some "m"), ("s", some "hi")],
   [("g", some "f"), ("s", some "lo")],
   [("g", some "f"), ("s", some "hi")]]

/-- Witness for C3 on a concrete dataset. -/
theorem cross_tabulate_invariants_witness :
    ∃ m, cross_tabulate exCrossData "g" "s" = Except.ok m ∧
      m.headD [] = Cell.label "" :: (sortedVals exCrossData "s").map Cell.label ∧
      (sortedVals exCrossData "s").Pairwise (fun a b => strLeB a b = true) ∧
      (∀ row ∈ m.tail, row.length = 1 + (sortedVals exCrossData "s").length) ∧
      m.tail.map (fun row => row.headD (Cell.label "")) =
        (sortedVals exCrossData "g").map Cell.label ∧
      (sortedVals exCrossData "g").Pairwise (fun a b => strLeB a b = true) ∧
      (m.tail.map (fun row => (row.tail.map cellNum).sum)).sum =
        exCrossData.countP (fun r => cellVal r "g" != "" && cellVal r "s" != "") :=
  cross_tabulate_invariants exCrossData "g" "s" (by decide) (by decide)

/-! ### Claim C1: when the chi-square test returns the error sentinel -/

/-- The interior total of the assembled cross-tab matrix is the number of
records with both columns non-empty. -/
theorem chiSquare_total_eq (data : List Record) (c1 c2 : String) :
    ((((Cell.label "" :: (sortedVals data c2).map Cell.label) ::
      (sortedVals data c1).map (fun a => Cell.label a :: (sortedVals data c2).map
        (fun b => Cell.num (cellCount data c1 c2 a b)))).tail.map
          (fun row => row.tail.map cellNum)).map (fun row => row.sum)).sum =
      data.countP (fun r => cellVal r c1 != "" && cellVal r c2 != "") := by
  simp only [List.tail_cons, List.map_map]
  refine Eq.trans (congrArg List.sum (List.map_congr_left (fun a _ => ?_)))
    (interiorSum_eq data c1 c2)
  show (((Cell.label a :: (sortedVals data c2).map
      (fun b => Cell.num (cellCount data c1 c2 a b))).tail.map cellNum)).sum = _
  rw [List.tail_cons, List.map_map]
  rfl

/-- C1 (amended): for existing columns, `chi_square_test` returns the fixed
error sentinel (chi_square 0, p 1, df 0, not significant, error marker set)
exactly when the cross-tabulation has zero distinct values on one of the axes
or fewer than 5 records have both columns non-empty.  (With exactly one
distinct value on an axis and at least 5 observations the numeric fields
coincide with the sentinel's, but no error marker is present.) -/
theorem chi_square_insufficient_iff (data : List Record) (c1 c2 : String)
    (h1 : c1 ∈ columnsOf data) (h2 : c2 ∈ columnsOf data) :
    chi_square_test data c1 c2 = Except.ok insufficientResult ↔
      ((distinctVals data c1).length = 0 ∨ (distinctVals data c2).length = 0 ∨
        data.countP (fun r => cellVal r c1 != "" && cellVal r c2 != "") < 5) := by
  have hcols : ¬(c1 ∉ columnsOf data ∨ c2 ∉ columnsOf data) := by
    push_neg
    exact ⟨h1, h2⟩
  have hl1 : (sortedVals data c1).length = (distinctVals data c1).length :=
    (List.perm_insertionSort strRel _).length_eq
  have hl2 : (sortedVals data c2).length = (distinctVals data c2).length :=
    (List.perm_insertionSort strRel _).length_eq
  rw [chi_square_test, cross_tabulate, if_neg hcols]
  simp only []
  split_ifs with hg1 hg2
  · simp only [List.length_cons, List.headD_cons, List.length_map] at hg1
    simp only [true_iff, iff_true_intro rfl]
    omega
  · rw [chiSquare_total_eq data c1 c2] at hg2
    simp only [true_iff, iff_true_intro rfl]
    omega
  · simp only [List.length_cons, List.headD_cons, List.length_map] at hg1
    rw [chiSquare_total_eq data c1 c2] at hg2
    constructor
    · intro hmk
      rw [Except.ok.injEq] at hmk
      have : (none : Option String) = some "Insufficient data for chi-square test" :=
        congrArg ChiSquareResult.error hmk
      exact absurd this (by simp)
    · intro hrhs
      omega

/-- Dataset for the C1 counterexample: five identical records, so each axis
has exactly one distinct value and the observed total is 5. -/
def exChiData : List Record := List.replicate 5 [("a", some "x"), ("b", some "y")]

/-- Counterexample to C1 as stated: the first axis has fewer than 2 distinct
values, yet the result is not the error sentinel — it carries the sentinel's
numbers but its `error` field is `none`. -/
theorem chi_square_one_distinct_no_error :
    (distinctVals exChiData "a").length < 2 ∧
    chi_square_test exChiData "a" "b" =
      Except.ok ⟨0, 1, 0, false, none, some [[5]], some [[5]]⟩ := by
  constructor
  · decide
  · have hct : cross_tabulate exChiData "a" "b" =
        Except.ok [[Cell.label "", Cell.label "y"], [Cell.label "x", Cell.num 5]] := rfl
    rw [chi_square_test, hct]
    norm_num [cellNum, expectedFreq, chiStat, chiSquarePValue,
      List.range_succ, List.range_zero]

/-- Witness for C1 (amended): one record gives 1 observation < 5, so the
sentinel with error marker is returned. -/
theorem chi_square_insufficient_iff_witness :
    chi_square_test [[("a", some "x"), ("b", some "y")]] "a" "b" =
      Except.ok insufficientResult :=
  (chi_square_insufficient_iff [[("a", some "x"), ("b", some "y")]] "a" "b"
    (by decide) (by decide)).mpr (Or.inr (Or.inr (by decide)))

/-! ### Claim C2: the combination pass -/

/-- C2 (amended): the combination pass reports, among the 3 most frequent
combinations, exactly those with count > 1 whose count divided by the number
of records having at least one non-empty field exceeds 10%, with
confidence = min(85, percentage×2) and sample_size = count. -/
theorem find_combination_patterns_spec (data : List Record) :
    _find_combination_patterns data =
      (((mostCommonAll (responseCombinations data)).take 3).filter
        (fun p => decide (1 < p.2) && decide ((10 : ℚ) <
          (p.2 : ℚ) / ((responseCombinations data).length : ℚ) * 100))).map
        (fun p =>
          let joined := String.intercalate ", " p.1
          let percentage : ℚ := (p.2 : ℚ) / ((responseCombinations data).length : ℚ) * 100
          ⟨"combination_pattern", s!"Common response combination: {joined}",
            min 85 (percentage * 2), p.2, PatternPayload.combination percentage p.1⟩) := by
  rw [_find_combination_patterns]
  generalize (mostCommonAll (responseCombinations data)).take 3 = L
  induction L with
  | nil => rfl
  | cons p L ih =>
    rw [List.filterMap_cons, List.filter_cons]
    by_cases h1 : p.2 > 1
    · by_cases h2 : ((p.2 : ℚ) / ((responseCombinations data).length : ℚ) * 100) > 10
      · simp [h1, h2, ih]
      · simp [h1, h2, ih]
    · simp [h1, ih]

/-- Dataset for the C2 counterexample: 20 records, two of them carrying the
single combination `a:x`, the other 18 entirely empty. -/
def exComboData : List Record :=
  [[("a", some "x")], [("a", some "x")]] ++ List.replicate 18 [("a", none)]

/-- Counterexample to C2 as stated: a pattern is emitted (count 2 out of the
2 non-empty combinations), although count divided by the total number of
records is 10%, not more than 10%. -/
theorem find_combination_patterns_total_records_counterexample :
    (_find_combination_patterns exComboData).length = 1 ∧
    ¬((2 : ℚ) / (exComboData.length : ℚ) * 100 > 10) := by
  constructor
  · have hcombos : responseCombinations exComboData = [["a:x"], ["a:x"]] := rfl
    have hmc : (mostCommonAll (responseCombinations exComboData)).take 3 =
        [(["a:x"], 2)] := rfl
    rw [_find_combination_patterns, hmc, hcombos]
    norm_num [List.filterMap_cons]
  · have hlen : exComboData.length = 20 := rfl
    rw [hlen]
    norm_num

/-! ### Claim C7: correlation analysis -/

/-- A record contributes a correlation pair iff both columns hold non-blank
values that parse as floats (theorem-side characterisation of the pairing
rule of stats_analyzer.py 209-222). -/
def bothNumeric (r : Record) (c1 c2 : String) : Bool :=
  (match getVal r c1 with
   | some v => trimStr v != "" && (pyFloat? v).isSome
   | none => false) &&
  (match getVal r c2 with
   | some v => trimStr v != "" && (pyFloat? v).isSome
   | none => false)

/-- The parsed float of a record's column (0 when absent; only used where
`bothNumeric` holds). -/
def numOf (r : Record) (c : String) : ℚ := ((getVal r c).bind pyFloat?).getD 0

theorem filterMap_eq_filter_map (f : α → Option β) (g : α → β)
    (h : ∀ a, ∀ b, f a = some b → b = g a) (l : List α) :
    l.filterMap f = (l.filter (fun a => (f a).isSome)).map g := by
  induction l with
  | nil => rfl
  | cons a t ih =>
    rw [List.filterMap_cons, List.filter_cons]
    cases hfa : f a with
    | none => simp [hfa, ih]
    | some b => simp [hfa, ih, h a b hfa]

/-- Sums of squares are nonnegative. -/
theorem devSum_nonneg (l : List ℚ) : 0 ≤ devSum l :=
  List.sum_nonneg (fun v hv => by
    obtain ⟨a, _, rfl⟩ := List.mem_map.mp hv
    positivity)

/-- C7: correlation pairs come exactly from records where both columns parse
as floats; with fewer than 2 pairs the analysis returns the structured error
result (correlation 0, sample_size 0) without raising; otherwise it returns
the guarded Pearson value, which agrees with the population-form Pearson
coefficient of the spec whenever both deviation sums are non-zero, and is
exactly 0 whenever either deviation sum is 0. -/
theorem correlation_analysis_spec :
    (∀ (data : List Record) (c1 c2 : String),
        correlationPairs data c1 c2 =
          (data.filter (fun r => bothNumeric r c1 c2)).map
            (fun r => (numOf r c1, numOf r c2))) ∧
    (∀ (data : List Record) (c1 c2 : String),
        (correlationPairs data c1 c2).length < 2 →
        correlation_analysis data c1 c2 =
          ⟨0, 0, none, some "Insufficient numeric data for correlation analysis"⟩) ∧
    (∀ (data : List Record) (c1 c2 : String),
        2 ≤ (correlationPairs data c1 c2).length →
        (correlation_analysis data c1 c2).correlation =
          _calculate_correlation ((correlationPairs data c1 c2).map Prod.fst)
            ((correlationPairs data c1 c2).map Prod.snd) ∧
        (correlation_analysis data c1 c2).error = none) ∧
    (∀ x y : List ℚ, x.length = y.length → 2 ≤ x.length →
        devSum x ≠ 0 → devSum y ≠ 0 →
        _calculate_correlation x y = pearsonPopulationSpec x y) ∧
    (∀ x y : List ℚ, devSum x = 0 ∨ devSum y = 0 →
        _calculate_correlation x y = 0) := by
  refine ⟨fun data c1 c2 => ?_, fun data c1 c2 h => ?_, fun data c1 c2 h => ?_,
    fun x y hlen h2 hdx hdy => ?_, fun x y h => ?_⟩
  · rw [correlationPairs,
      filterMap_eq_filter_map _ (fun r => (numOf r c1, numOf r c2)) ?_ data]
    · refine congrArg _ (List.filter_congr (fun r _ => ?_))
      cases hv1 : getVal r c1 with
      | none => simp [bothNumeric, hv1]
      | some v1 =>
        cases hf1 : pyFloat? v1 with
        | none =>
          by_cases ht1 : trimStr v1 == "" <;>
            simp [bothNumeric, bne, hv1, hf1, ht1]
        | some n1 =>
          by_cases ht1 : trimStr v1 == ""
          · simp [bothNumeric, bne, hv1, hf1, ht1]
          · cases hv2 : getVal r c2 with
            | none => simp [bothNumeric, bne, hv1, hf1, ht1, hv2]
            | some v2 =>
              cases hf2 : pyFloat? v2 with
              | none =>
                by_cases ht2 : trimStr v2 == "" <;>
                  simp [bothNumeric, bne, hv1, hf1, ht1, hv2, hf2, ht2]
              | some n2 =>
                by_cases ht2 : trimStr v2 == "" <;>
                  simp [bothNumeric, bne, hv1, hf1, ht1, hv2, hf2, ht2]
    · intro r b hb
      cases hv1 : getVal r c1 with
      | none => simp [hv1] at hb
      | some v1 =>
        simp only [hv1] at hb
        by_cases ht1 : trimStr v1 == ""
        · simp [ht1] at hb
        · rw [if_neg ht1] at hb
          cases hf1 : pyFloat? v1 with
          | none => simp [hf1] at hb
          | some n1 =>
            simp only [hf1] at hb
            cases hv2 : getVal r c2 with
            | none => simp [hv2] at hb
            | some v2 =>
              simp only [hv2] at hb
              by_cases ht2 : trimStr v2 == ""
              · simp [ht2] at hb
              · rw [if_neg ht2] at hb
                cases hf2 : pyFloat? v2 with
                | none => simp [hf2] at hb
                | some n2 =>
                  simp only [hf2, Option.map_some', Option.some.injEq] at hb
                  simp only [numOf, hv1, hv2, Option.some_bind, hf1, hf2,
                    Option.getD_some]
                  exact hb.symm
  · rw [correlation_analysis]
    simp only []
    rw [if_pos h]
  · rw [correlation_analysis]
    simp only []
    rw [if_neg (not_lt.mpr h)]
    exact ⟨rfl, rfl⟩
  · rw [_calculate_correlation, pearsonPopulationSpec]
    simp only []
    rw [if_neg (by push_neg; exact ⟨hlen, h2⟩)]
    rw [if_neg (by push_neg; exact ⟨hdx, hdy⟩)]
    have hxq : (0 : ℚ) < (x.length : ℚ) := by
      exact_mod_cast Nat.lt_of_lt_of_le Nat.zero_lt_two h2
    have hnR : (0 : ℝ) < ((x.length : ℚ) : ℝ) := by exact_mod_cast hxq
    have hdxq : (0 : ℚ) < devSum x := lt_of_le_of_ne (devSum_nonneg x) (Ne.symm hdx)
    have hdyq : (0 : ℚ) < devSum y := lt_of_le_of_ne (devSum_nonneg y) (Ne.symm hdy)
    have hdxR : (0 : ℝ) < ((devSum x : ℚ) : ℝ) := by exact_mod_cast hdxq
    have hdyR : (0 : ℝ) < ((devSum y : ℚ) : ℝ) := by exact_mod_cast hdyq
    push_cast
    rw [Real.sqrt_div (by exact_mod_cast hdxR.le), Real.sqrt_div (by exact_mod_cast hdyR.le),
      Real.sqrt_mul (by exact_mod_cast hdxR.le)]
    have hsx : Real.sqrt ((devSum x : ℝ)) ≠ 0 :=
      ne_of_gt (Real.sqrt_pos.mpr (by exact_mod_cast hdxR))
    have hsy : Real.sqrt ((devSum y : ℝ)) ≠ 0 :=
      ne_of_gt (Real.sqrt_pos.mpr (by exact_mod_cast hdyR))
    have hnR' : (0 : ℝ) < ((x.length : ℕ) : ℝ) := by exact_mod_cast hnR
    have hsn : Real.sqrt (((x.length : ℕ) : ℝ)) ≠ 0 :=
      ne_of_gt (Real.sqrt_pos.mpr hnR')
    rw [div_mul_div_comm, Real.mul_self_sqrt hnR'.le]
    rw [div_div_div_cancel_right₀]
    exact ne_of_gt hnR'
  · rw [_calculate_correlation]
    simp only []
    by_cases hg1 : x.length ≠ y.length ∨ x.length < 2
    · rw [if_pos hg1]
    · rw [if_neg hg1, if_pos h]

/-- Example dataset for the C7 witness: three numeric pairs with constant
second column. -/
def exCorrData : List Record :=
  [[("a", some "1"), ("b", some "1")],
   [("a", some "2"), ("b", some "1")],
   [("a", some "3"), ("b", some "1")]]

/-- Witness for C7: the error result on an empty dataset, and the exact-zero
coefficient under the zero-variance guard on a constant column. -/
theorem correlation_analysis_spec_witness :
    correlation_analysis ([] : List Record) "a" "b" =
      ⟨0, 0, none, some "Insufficient numeric data for correlation analysis"⟩ ∧
    (correlation_analysis exCorrData "a" "b").correlation =
      _calculate_correlation ((correlationPairs exCorrData "a" "b").map Prod.fst)
        ((correlationPairs exCorrData "a" "b").map Prod.snd) ∧
    _calculate_correlation ((correlationPairs exCorrData "a" "b").map Prod.fst)
      ((correlationPairs exCorrData "a" "b").map Prod.snd) = 0 := by
  refine ⟨correlation_analysis_spec.2.1 [] "a" "b" (by decide),
    (correlation_analysis_spec.2.2.1 exCorrData "a" "b" (by decide)).1,
    correlation_analysis_spec.2.2.2.2 _ _ (Or.inr ?_)⟩
  have hsnd : (correlationPairs exCorrData "a" "b").map Prod.snd =
      [((1 : ℕ) : ℚ), ((1 : ℕ) : ℚ), ((1 : ℕ) : ℚ)] := rfl
  rw [hsnd]
  norm_num [devSum, meanQ]

end SurveyAnalyzer
